import Mathlib

/-!
Formal model of the QuentrexClaw v5 analysis core.

The definitions below are a shallow embedding of the TypeScript core:
  - src/utils/ict.ts        (swing / structure / order-block / FVG / PD detectors)
  - src/utils/liquidity.ts  (liquidity sweep engine, sweep+FVG setup detector)
  - src/utils/agents.ts     (five-agent council and consensus aggregator)
  - src/hooks/useKillzone.ts (backtest engine and metrics)

JavaScript numbers are modelled as rationals, JS `Math.round` as the
half-up integer rounding function jsRound.  Free-text rationale strings
(the `details`, `reasoning`, `label`, `id` fields) carry no algorithmic
content and are omitted from the records.  The time-of-day killzone lookup
is an excluded external collaborator (spec section 6) and is passed in as
an oracle `kzOf : rational time -> Option Killzone`.
-/

namespace Quentrex

/-- JS Math.round: round half toward positive infinity. -/
def jsRound (x : ℚ) : ℤ := ⌊x + 1/2⌋

/-- Score clamp used by every agent: Math.max(0, Math.min(100, s)). -/
def clamp01 (x : ℚ) : ℚ := max 0 (min 100 x)

/-- JS Array.slice(-n): final n elements of a list. -/
def lastN {α : Type} (n : Nat) (l : List α) : List α := l.drop (l.length - n)

/-- First element attaining the maximal key: model of a stable descending
JS sort followed by taking element 0 (ties keep the earliest element). -/
def firstMaxBy {α β : Type} [LinearOrder β] (f : α → β) (l : List α) : Option α :=
  l.foldl (fun acc x =>
    match acc with
    | none => some x
    | some m => if f m < f x then some x else acc) none

/-- Stable insertion for a descending sort by key. -/
def insertDescBy {α β : Type} [LinearOrder β] (f : α → β) (x : α) : List α → List α
  | [] => [x]
  | y :: ys => if f y ≤ f x then x :: y :: ys else y :: insertDescBy f x ys

/-- Stable descending sort by key: model of JS sort((a,b) => f b - f a). -/
def sortDescBy {α β : Type} [LinearOrder β] (f : α → β) : List α → List α
  | [] => []
  | x :: xs => insertDescBy f x (sortDescBy f xs)

-- ─── Data model (src/types.ts) ───

structure Candle where
  time : ℚ
  open_ : ℚ
  high : ℚ
  low : ℚ
  close : ℚ
  volume : ℚ
deriving DecidableEq, Repr, Inhabited

inductive Timeframe
  | m1 | m3 | m5 | m15 | m30 | h1 | h4 | d1 | w1
deriving DecidableEq, Repr, Inhabited

inductive SwingType
  | HIGH | LOW
deriving DecidableEq, Repr, Inhabited

structure SwingPoint where
  index : Nat
  time : ℚ
  price : ℚ
  type : SwingType
deriving DecidableEq, Repr, Inhabited

inductive StructureKind
  | BOS_BULL | CHoCH_BULL | BOS_BEAR | CHoCH_BEAR
deriving DecidableEq, Repr, Inhabited

structure StructurePoint where
  time : ℚ
  price : ℚ
  type : StructureKind
  confirmed : Bool
  candle : Candle
deriving DecidableEq, Repr, Inhabited

inductive OBKind
  | BULLISH | BEARISH
deriving DecidableEq, Repr, Inhabited

structure OrderBlock where
  type : OBKind
  top : ℚ
  bottom : ℚ
  time : ℚ
  mitigated : Bool
  mitigationTime : Option ℚ
  volume : ℚ
  strength : ℤ
  timeframe : Timeframe
deriving DecidableEq, Repr, Inhabited

structure FairValueGap where
  type : OBKind
  top : ℚ
  bottom : ℚ
  midpoint : ℚ
  time : ℚ
  filled : Bool
  fillPercent : ℚ
  timeframe : Timeframe
deriving DecidableEq, Repr, Inhabited

structure PDArray where
  high : ℚ
  low : ℚ
  premium : ℚ
  equilibrium : ℚ
  discount : ℚ
  type : OBKind
  strength : ℚ
deriving DecidableEq, Repr, Inhabited

inductive LevelStatus
  | ACTIVE | SWEPT
deriving DecidableEq, Repr, Inhabited

structure LiquidityLevel where
  price : ℚ
  time : ℚ
  type : SwingType
  status : LevelStatus
  strength : ℚ
  timeframe : Timeframe
  sweepTime : Option ℚ
  sweepCandle : Option Candle
deriving DecidableEq, Repr, Inhabited

inductive AgentName
  | STRUCTURE | LIQUIDITY | ARRAY | RISK | EXECUTION
deriving DecidableEq, Repr, Inhabited

structure AgentSignal where
  agent : AgentName
  score : ℚ
  bullish : Bool
  weight : ℚ
deriving DecidableEq, Repr, Inhabited

inductive SetupGrade
  | Aplus | A | B | C
deriving DecidableEq, Repr, Inhabited

inductive TradeDirection
  | LONG | SHORT
deriving DecidableEq, Repr, Inhabited

structure AgentCouncil where
  agents : List AgentSignal
  consensusScore : ℤ
  grade : SetupGrade
  direction : Option TradeDirection
deriving DecidableEq, Repr, Inhabited

inductive KZName
  | AKZ | LKZ | NYKZ
deriving DecidableEq, Repr, Inhabited

structure Killzone where
  name : KZName
  active : Bool
  minutesRemaining : Option ℚ
deriving DecidableEq, Repr, Inhabited

-- ─── detectSwings (ict.ts) ───

/-- Window of candidate indices [i-L, i+R] scanned by the pivot check. -/
def pivotWindow (leftLen rightLen i : Nat) : List Nat :=
  (List.range (leftLen + rightLen + 1)).map (fun k => i - leftLen + k)

/-- Pivot High test: highest high in [i-left, i+right], ties disqualify. -/
def isPivotHigh (candles : List Candle) (leftLen rightLen i : Nat) : Bool :=
  (pivotWindow leftLen rightLen i).all (fun j =>
    j == i || decide ((candles.getD j default).high < (candles.getD i default).high))

/-- Pivot Low test: lowest low in [i-left, i+right], ties disqualify. -/
def isPivotLow (candles : List Candle) (leftLen rightLen i : Nat) : Bool :=
  (pivotWindow leftLen rightLen i).all (fun j =>
    j == i || decide ((candles.getD i default).low < (candles.getD j default).low))

/-- Swing points generated in index order (HIGH pushed before LOW at a
given index), before the final sort of detectSwings. -/
def swingCandidates (candles : List Candle) (leftLen rightLen : Nat) : List SwingPoint :=
  (List.range candles.length).flatMap (fun i =>
    if leftLen ≤ i ∧ i + rightLen < candles.length then
      (if isPivotHigh candles leftLen rightLen i then
        [{ index := i, time := (candles.getD i default).time,
           price := (candles.getD i default).high, type := SwingType.HIGH }] else []) ++
      (if isPivotLow candles leftLen rightLen i then
        [{ index := i, time := (candles.getD i default).time,
           price := (candles.getD i default).low, type := SwingType.LOW }] else [])
    else [])

/-- Stable insertion by candle index. -/
def insertSwing (s : SwingPoint) : List SwingPoint → List SwingPoint
  | [] => [s]
  | t :: ts => if s.index ≤ t.index then s :: t :: ts else t :: insertSwing s ts

/-- Stable ascending sort by candle index (model of sort((a,b) => a.index - b.index)). -/
def sortSwings : List SwingPoint → List SwingPoint
  | [] => []
  | s :: ss => insertSwing s (sortSwings ss)

/-- detectSwings from ict.ts: pivot highs/lows over a left/right lookback. -/
def detectSwings (candles : List Candle) (leftLen rightLen : Nat) : List SwingPoint :=
  sortSwings (swingCandidates candles leftLen rightLen)

-- ─── detectMarketStructure (ict.ts) ───

def StructureKind.isBull : StructureKind → Bool
  | .BOS_BULL | .CHoCH_BULL => true
  | _ => false

def StructureKind.isBear : StructureKind → Bool
  | .BOS_BEAR | .CHoCH_BEAR => true
  | _ => false

def StructureKind.isChoch : StructureKind → Bool
  | .CHoCH_BULL | .CHoCH_BEAR => true
  | _ => false

/-- Most recent swing of the given kind at or before index i: model of
swings.filter(type, index <= i).sort(desc index)[0] with a stable sort. -/
def latestSwingLE (swings : List SwingPoint) (kind : SwingType) (i : Nat) : Option SwingPoint :=
  firstMaxBy (fun s => s.index) (swings.filter (fun s => s.type == kind && s.index ≤ i))

structure MSState where
  trend : Bool
  lastHigh : Option SwingPoint
  lastLow : Option SwingPoint
  points : List StructurePoint
deriving Repr

/-- One candle of the market-structure scan (trend true means UP). -/
def msStep (swings : List SwingPoint) (st : MSState) (ic : Nat × Candle) : MSState :=
  let i := ic.1
  let candle := ic.2
  let st1 :=
    match st.lastHigh with
    | some lh =>
      if lh.price < candle.high then
        let isBOS := st.trend
        let pt : StructurePoint :=
          { time := candle.time, price := lh.price,
            type := if isBOS then StructureKind.BOS_BULL else StructureKind.CHoCH_BULL,
            confirmed := decide (lh.price < candle.close), candle := candle }
        { st with trend := true,
                  lastHigh := latestSwingLE swings SwingType.HIGH i,
                  points := st.points ++ [pt] }
      else st
    | none => st
  match st1.lastLow with
  | some ll =>
    if candle.low < ll.price then
      let isBOS := st1.trend == false
      let pt : StructurePoint :=
        { time := candle.time, price := ll.price,
          type := if isBOS then StructureKind.BOS_BEAR else StructureKind.CHoCH_BEAR,
          confirmed := decide (candle.close < ll.price), candle := candle }
      { st1 with trend := false,
                 lastLow := latestSwingLE swings SwingType.LOW i,
                 points := st1.points ++ [pt] }
    else st1
  | none => st1

/-- detectMarketStructure from ict.ts: BOS / CHoCH event log. -/
def detectMarketStructure (candles : List Candle) (swings : List SwingPoint) :
    List StructurePoint :=
  if swings.length < 4 then []
  else
    let st0 : MSState :=
      { trend := (swings.headD default).type == SwingType.LOW,
        lastHigh := swings.find? (fun s => s.type == SwingType.HIGH),
        lastLow := swings.find? (fun s => s.type == SwingType.LOW),
        points := [] }
    ((candles.enum.drop 1).foldl (msStep swings) st0).points

-- ─── detectOrderBlocks (ict.ts) ───

/-- Average volume over the whole series. -/
def avgVolume (candles : List Candle) : ℚ :=
  (candles.foldl (fun s c => s + c.volume) 0) / (candles.length : ℚ)

/-- Backward scan indices spIdx-1, spIdx-2, ..., max(0, spIdx-20). -/
def obScanIdxs (spIdx : Nat) : List Nat :=
  (List.range (spIdx - (spIdx - 20))).map (fun t => spIdx - 1 - t)

/-- Candidate order block derived from one structure event, if any. -/
def mkOrderBlock (candles : List Candle) (avgVol : ℚ) (tf : Timeframe)
    (sp : StructurePoint) : Option OrderBlock :=
  match candles.findIdx? (fun c => decide (sp.time ≤ c.time)) with
  | none => none
  | some spIdx =>
    if spIdx < 3 then none
    else if sp.type.isBull then
      (obScanIdxs spIdx).findSome? (fun j =>
        let c := candles.getD j default
        if c.close < c.open_ then
          let volStrength := min 100 (c.volume / avgVol * 50)
          let moveStrength := min 50 ((sp.price - c.high) / c.high * 1000)
          some { type := OBKind.BULLISH, top := c.open_, bottom := c.low,
                 time := c.time, mitigated := false, mitigationTime := none,
                 volume := c.volume, strength := jsRound (volStrength + moveStrength),
                 timeframe := tf }
        else none)
    else
      (obScanIdxs spIdx).findSome? (fun j =>
        let c := candles.getD j default
        if c.open_ < c.close then
          let volStrength := min 100 (c.volume / avgVol * 50)
          let moveStrength := min 50 ((c.low - sp.price) / c.low * 1000)
          some { type := OBKind.BEARISH, top := c.high, bottom := c.open_,
                 time := c.time, mitigated := false, mitigationTime := none,
                 volume := c.volume, strength := jsRound (volStrength + moveStrength),
                 timeframe := tf }
        else none)

/-- Mitigation pass: first later candle trading through the block. -/
def mitigateOB (candles : List Candle) (ob : OrderBlock) : OrderBlock :=
  let start :=
    match candles.findIdx? (fun c => decide (ob.time ≤ c.time)) with
    | some k => k + 1
    | none => 0
  match (candles.drop start).find? (fun c =>
      (ob.type == OBKind.BULLISH && decide (c.low ≤ ob.bottom)) ||
      (ob.type == OBKind.BEARISH && decide (ob.top ≤ c.high))) with
  | some c => { ob with mitigated := true, mitigationTime := some c.time }
  | none => ob

/-- detectOrderBlocks from ict.ts. -/
def detectOrderBlocks (candles : List Candle) (structurePoints : List StructurePoint)
    (tf : Timeframe) : List OrderBlock :=
  let av := avgVolume candles
  ((structurePoints.filterMap (mkOrderBlock candles av tf)).map
    (mitigateOB candles)).filter (fun b => 20 < b.strength)

-- ─── detectFVGs (ict.ts) ───

/-- First pass of detectFVGs: the raw 3-candle imbalances, unfilled. -/
def rawFVGs (candles : List Candle) (tf : Timeframe) (minSizePercent : ℚ) :
    List FairValueGap :=
  (List.range candles.length).flatMap (fun i =>
    if 1 ≤ i ∧ i + 1 < candles.length then
      let prev := candles.getD (i - 1) default
      let curr := candles.getD i default
      let next := candles.getD (i + 1) default
      (if prev.high < next.low ∧ minSizePercent ≤ (next.low - prev.high) / prev.high * 100 then
        [{ type := OBKind.BULLISH, top := next.low, bottom := prev.high,
           midpoint := (next.low + prev.high) / 2, time := curr.time,
           filled := false, fillPercent := 0, timeframe := tf }] else []) ++
      (if next.high < prev.low ∧ minSizePercent ≤ (prev.low - next.high) / prev.low * 100 then
        [{ type := OBKind.BEARISH, top := prev.low, bottom := next.high,
           midpoint := (prev.low + next.high) / 2, time := curr.time,
           filled := false, fillPercent := 0, timeframe := tf }] else []) else [])

/-- Fill-tracking scan of one FVG over the forward candles; the loop
breaks as soon as the gap is fully crossed. -/
def trackFVGFill (fvg : FairValueGap) : List Candle → FairValueGap
  | [] => fvg
  | c :: rest =>
    if fvg.type == OBKind.BULLISH then
      if c.low ≤ fvg.top then
        let penetration := min (fvg.top - c.low) (fvg.top - fvg.bottom)
        let f1 := { fvg with fillPercent := penetration / (fvg.top - fvg.bottom) * 100 }
        if c.low ≤ fvg.bottom then { f1 with filled := true, fillPercent := 100 }
        else trackFVGFill f1 rest
      else trackFVGFill fvg rest
    else
      if fvg.bottom ≤ c.high then
        let penetration := min (c.high - fvg.bottom) (fvg.top - fvg.bottom)
        let f1 := { fvg with fillPercent := penetration / (fvg.top - fvg.bottom) * 100 }
        if fvg.top ≤ c.high then { f1 with filled := true, fillPercent := 100 }
        else trackFVGFill f1 rest
      else trackFVGFill fvg rest

/-- Forward candles scanned by the fill pass of one FVG. -/
def fvgScanList (candles : List Candle) (fvg : FairValueGap) : List Candle :=
  let start :=
    match candles.findIdx? (fun c => decide (fvg.time ≤ c.time)) with
    | some k => k + 1
    | none => 0
  candles.drop start

/-- detectFVGs from ict.ts: raw gaps with fill status tracked forward. -/
def detectFVGs (candles : List Candle) (tf : Timeframe) (minSizePercent : ℚ) :
    List FairValueGap :=
  (rawFVGs candles tf minSizePercent).map (fun fvg =>
    trackFVGFill fvg (fvgScanList candles fvg))

-- ─── calcPDArray / pdScore (ict.ts) ───

/-- Fold for JS Math.max over a nonempty price list. -/
def maxPrice (l : List SwingPoint) : ℚ :=
  match l with
  | [] => 0
  | s :: rest => rest.foldl (fun m t => max m t.price) s.price

/-- Fold for JS Math.min over a nonempty price list. -/
def minPrice (l : List SwingPoint) : ℚ :=
  match l with
  | [] => 0
  | s :: rest => rest.foldl (fun m t => min m t.price) s.price

/-- calcPDArray from ict.ts: fibonacci premium/discount band of the last
three swing highs and lows; none when either set is empty. -/
def calcPDArray (swings : List SwingPoint) (currentPrice : ℚ) : Option PDArray :=
  let highs := lastN 3 (swings.filter (fun s => s.type == SwingType.HIGH))
  let lows := lastN 3 (swings.filter (fun s => s.type == SwingType.LOW))
  if highs = [] ∨ lows = [] then none
  else
    let high := maxPrice highs
    let low := minPrice lows
    let range := high - low
    some { high := high, low := low,
           premium := low + range * 0.618,
           equilibrium := low + range * 0.5,
           discount := low + range * 0.382,
           type := if low + range * 0.5 < currentPrice then OBKind.BEARISH else OBKind.BULLISH,
           strength := min 100 (range / currentPrice * 10000) }

/-- pdScore from ict.ts: 0 in premium, 100 in discount, linear between. -/
def pdScore (pd : PDArray) (price : ℚ) : ℚ :=
  if pd.premium ≤ price then 0
  else if price ≤ pd.discount then 100
  else (pd.premium - price) / (pd.premium - pd.discount) * 100

-- ─── detectBreakerBlocks (ict.ts) ───

/-- detectBreakerBlocks from ict.ts: mitigated order blocks flip bias and
gain 20 strength.  The candle list parameter is unused in the source. -/
def detectBreakerBlocks (orderBlocks : List OrderBlock) (_candles : List Candle) :
    List OrderBlock :=
  (orderBlocks.filter (fun ob => ob.mitigated)).map (fun ob =>
    { ob with
      type := if ob.type == OBKind.BULLISH then OBKind.BEARISH else OBKind.BULLISH,
      strength := ob.strength + 20 })

-- ─── scoring helpers (ict.ts) ───

/-- countNearbyOBs from ict.ts: unmitigated blocks stacked near price. -/
def countNearbyOBs (obs : List OrderBlock) (price : ℚ) (pctRange : ℚ) : Nat × Nat :=
  let range := price * pctRange / 100
  ((obs.filter (fun ob => !ob.mitigated && ob.type == OBKind.BULLISH &&
      decide (|ob.top - price| < range))).length,
   (obs.filter (fun ob => !ob.mitigated && ob.type == OBKind.BEARISH &&
      decide (|ob.bottom - price| < range))).length)

/-- nearestFVG from ict.ts: most recent unfilled FVG near price. -/
def nearestFVG (fvgs : List FairValueGap) (price : ℚ) (pctRange : ℚ) :
    Option FairValueGap :=
  let range := price * pctRange / 100
  firstMaxBy (fun f => f.time)
    (fvgs.filter (fun f => !f.filled && decide (|f.midpoint - price| < range)))

-- ─── detectLiquiditySweeps (liquidity.ts) ───

/-- detectLiquiditySweeps from liquidity.ts: every swing becomes a
liquidity level; strength grows with nearby retests; the level flips to
SWEPT at the first later candle trading through the swing price. -/
def detectLiquiditySweeps (candles : List Candle) (tf : Timeframe)
    (leftLen rightLen : Nat) : List LiquidityLevel :=
  (detectSwings candles leftLen rightLen).map (fun (swing : SwingPoint) =>
    let testCount := (candles.drop (swing.index + 1)).countP (fun c =>
      let approach := if swing.type == SwingType.HIGH then c.high / swing.price
                      else swing.price / c.low
      decide (0.997 < approach) && decide (approach < 1.003))
    let level : LiquidityLevel :=
      { price := swing.price, time := swing.time, type := swing.type,
        status := LevelStatus.ACTIVE,
        strength := min 100 (30 + (testCount : ℚ) * 15),
        timeframe := tf, sweepTime := none, sweepCandle := none }
    match (candles.drop (swing.index + 1)).find? (fun c =>
        if swing.type == SwingType.HIGH then decide (swing.price < c.high)
        else decide (c.low < swing.price)) with
    | some c => { level with status := LevelStatus.SWEPT,
                             sweepTime := some c.time, sweepCandle := some c }
    | none => level)

-- ─── detectSweepFVGSetups (liquidity.ts) ───

structure SweepFVGSetup where
  sweep : LiquidityLevel
  displacementCandle : Candle
  fvgEntry : ℚ
  fvgTop : ℚ
  fvgBottom : ℚ
  stopLoss : ℚ
  direction : TradeDirection
  quality : ℤ
deriving DecidableEq, Repr, Inhabited

/-- calcSetupQuality from liquidity.ts. -/
def calcSetupQuality (level : LiquidityLevel) (displacementSize fvgSize : ℚ) : ℤ :=
  let score := level.strength * 0.4 + min 30 (displacementSize * 3000) +
    min 20 (fvgSize * 40) + (if level.status == LevelStatus.SWEPT then 10 else 0)
  min 100 (jsRound score)

/-- Displacement candidates examined for one swept level: the candle
indices strictly between sweepIdx and min(sweepIdx + 6, length - 1). -/
def displacementIdxs (sweepIdx n : Nat) : List Nat :=
  (List.range (min (sweepIdx + 6) (n - 1) - (sweepIdx + 1))).map (fun t => sweepIdx + 1 + t)

/-- Setups produced by one swept level (inner loop of detectSweepFVGSetups). -/
def setupsForLevel (candles : List Candle) (fvgMinSizePct : ℚ)
    (level : LiquidityLevel) : List SweepFVGSetup :=
  match level.sweepTime with
  | none => []
  | some st =>
    match candles.findIdx? (fun c => c.time == st) with
    | none => []
    | some sweepIdx =>
      if sweepIdx < 1 ∨ candles.length ≤ sweepIdx + 2 then []
      else
        (displacementIdxs sweepIdx candles.length).filterMap (fun i =>
          let prev := candles.getD (i - 1) default
          let curr := candles.getD i default
          let next := candles.getD (i + 1) default
          if level.type == SwingType.HIGH then
            let bearishBody := curr.open_ - curr.close
            if 0 < bearishBody ∧ 0.003 < bearishBody / curr.open_ ∧ next.high < prev.low then
              let fvgTop := prev.low
              let fvgBottom := next.high
              let fvgSize := (fvgTop - fvgBottom) / fvgBottom * 100
              if fvgMinSizePct ≤ fvgSize then
                some { sweep := level, displacementCandle := curr,
                       fvgEntry := (fvgTop + fvgBottom) / 2,
                       fvgTop := fvgTop, fvgBottom := fvgBottom,
                       stopLoss := level.price * 1.002,
                       direction := TradeDirection.SHORT,
                       quality := calcSetupQuality level (bearishBody / curr.open_) fvgSize }
              else none
            else none
          else
            let bullishBody := curr.close - curr.open_
            if 0 < bullishBody ∧ 0.003 < bullishBody / curr.open_ ∧ prev.high < next.low then
              let fvgTop := next.low
              let fvgBottom := prev.high
              let fvgSize := (fvgTop - fvgBottom) / fvgBottom * 100
              if fvgMinSizePct ≤ fvgSize then
                some { sweep := level, displacementCandle := curr,
                       fvgEntry := (fvgTop + fvgBottom) / 2,
                       fvgTop := fvgTop, fvgBottom := fvgBottom,
                       stopLoss := level.price * 0.998,
                       direction := TradeDirection.LONG,
                       quality := calcSetupQuality level (bullishBody / curr.open_) fvgSize }
              else none
            else none)

/-- detectSweepFVGSetups from liquidity.ts: sweep + displacement + FVG
combos over all swept levels, sorted by descending quality. -/
def detectSweepFVGSetups (candles : List Candle) (levels : List LiquidityLevel)
    (fvgMinSizePct : ℚ) : List SweepFVGSetup :=
  sortDescBy (fun s => s.quality)
    ((levels.filter (fun l => l.status == LevelStatus.SWEPT && l.sweepCandle.isSome)).flatMap
      (setupsForLevel candles fvgMinSizePct))

-- ─── scoreLiquidityMagnet (liquidity.ts) ───

/-- Fixed per-timeframe weight table of the magnet scorer. -/
def tfWeight : Timeframe → ℚ
  | .w1 => 1 | .d1 => 0.85 | .h4 => 0.7 | .h1 => 0.6
  | .m30 => 0.5 | .m15 => 0.45 | .m5 => 0.35 | .m3 => 0.3 | .m1 => 0.25

structure MagnetScore where
  level : LiquidityLevel
  magnetScore : ℚ
deriving DecidableEq, Repr, Inhabited

/-- scoreLiquidityMagnet from liquidity.ts: ranks ACTIVE levels by a blend
of inverse distance, timeframe weight, and strength. -/
def scoreLiquidityMagnet (levels : List LiquidityLevel) (currentPrice : ℚ) :
    List MagnetScore :=
  sortDescBy (fun m => m.magnetScore)
    ((levels.filter (fun l => l.status == LevelStatus.ACTIVE)).map (fun l =>
      let distPct := |l.price - currentPrice| / currentPrice * 100
      let distScore := max 0 (50 - distPct * 10)
      let tfScore := tfWeight l.timeframe * 30
      let strScore := l.strength * 0.2
      { level := l, magnetScore := min 100 (distScore + tfScore + strScore) }))

-- ─── agents.ts: fixed weights ───

def WEIGHT_STRUCTURE : ℚ := 0.25
def WEIGHT_LIQUIDITY : ℚ := 0.25
def WEIGHT_ARRAY : ℚ := 0.20
def WEIGHT_RISK : ℚ := 0.15
def WEIGHT_EXECUTION : ℚ := 0.15

-- ─── agents.ts: Structure Analyst ───

/-- runStructureAgent from agents.ts. -/
def runStructureAgent (candles : List Candle) (structurePoints : List StructurePoint)
    (direction : TradeDirection) : AgentSignal :=
  let recent := lastN 8 structurePoints
  let aligned := recent.filter (fun sp =>
    if direction == TradeDirection.LONG then sp.type.isBull else sp.type.isBear)
  let alignedScore := min 40 ((aligned.length : ℚ) * 12)
  let s1 := alignedScore
  let s2 :=
    match recent.getLast? with
    | some lastSP =>
      let lastAligned := if direction == TradeDirection.LONG then lastSP.type.isBull
                         else lastSP.type.isBear
      if lastAligned then s1 + 20 else s1 - 10
    | none => s1
  let s3 := if recent.any (fun sp => sp.type.isChoch) then s2 + 15 else s2
  let confirmedPts := recent.filter (fun sp => sp.confirmed &&
    (if direction == TradeDirection.LONG then sp.type.isBull else sp.type.isBear))
  let s4 := if 0 < confirmedPts.length then s3 + 15 else s3
  let last5 := lastN 5 candles
  let bullish5 := last5.countP (fun c => decide (c.open_ < c.close))
  let s5 := if direction == TradeDirection.LONG ∧ 3 ≤ bullish5 then s4 + 10 else s4
  let s6 := if direction == TradeDirection.SHORT ∧ bullish5 ≤ 2 then s5 + 10 else s5
  { agent := AgentName.STRUCTURE, score := clamp01 s6,
    bullish := direction == TradeDirection.LONG, weight := WEIGHT_STRUCTURE }

-- ─── agents.ts: Liquidity Detector ───

/-- runLiquidityAgent from agents.ts. -/
def runLiquidityAgent (levels : List LiquidityLevel) (currentPrice : ℚ)
    (direction : TradeDirection) : AgentSignal :=
  let recentSweeps := lastN 10 (levels.filter (fun l => l.status == LevelStatus.SWEPT))
  let alignedSweeps := recentSweeps.filter (fun l =>
    if direction == TradeDirection.LONG then l.type == SwingType.LOW
    else l.type == SwingType.HIGH)
  let s1 :=
    if alignedSweeps.length ≠ 0 then
      min 40 ((alignedSweeps.foldl (fun s l => s + l.strength) 0) /
        (alignedSweeps.length : ℚ) * 0.4)
    else 0
  let htfSweeps := alignedSweeps.filter (fun l =>
    l.timeframe == Timeframe.h4 || l.timeframe == Timeframe.d1 || l.timeframe == Timeframe.w1)
  let s2 := if htfSweeps.length ≠ 0 then s1 + 25 else s1
  let magnets := scoreLiquidityMagnet levels currentPrice
  let s3 :=
    match magnets.head? with
    | some topMagnet =>
      if 60 < topMagnet.magnetScore then
        let isAligned := if direction == TradeDirection.LONG
          then topMagnet.level.type == SwingType.HIGH
          else topMagnet.level.type == SwingType.LOW
        if isAligned then s2 + 20 else s2
      else s2
    | none => s2
  let s4 := if alignedSweeps.length = 0 then s3 - 20 else s3
  { agent := AgentName.LIQUIDITY, score := clamp01 s4,
    bullish := direction == TradeDirection.LONG, weight := WEIGHT_LIQUIDITY }

-- ─── agents.ts: Array Specialist ───

/-- runArrayAgent from agents.ts. -/
def runArrayAgent (orderBlocks : List OrderBlock) (fvgs : List FairValueGap)
    (pdArray : Option PDArray) (currentPrice : ℚ) (direction : TradeDirection) :
    AgentSignal :=
  let nearbyOBs := countNearbyOBs orderBlocks currentPrice 1.5
  let relevantOBs := if direction == TradeDirection.LONG then nearbyOBs.1 else nearbyOBs.2
  let s1 := if 0 < relevantOBs then min 30 ((relevantOBs : ℚ) * 15) else 0
  let s2 :=
    match nearestFVG fvgs currentPrice 2.0 with
    | some fvg =>
      if !fvg.filled then
        let aligned := if direction == TradeDirection.LONG then fvg.type == OBKind.BULLISH
                       else fvg.type == OBKind.BEARISH
        let t1 := if aligned then s1 + 25 else s1
        if 30 < fvg.fillPercent ∧ fvg.fillPercent < 60 then t1 + 10 else t1
      else s1
    | none => s1
  let s3 :=
    match pdArray with
    | some pd =>
      let pds := pdScore pd currentPrice
      if direction == TradeDirection.LONG ∧ 70 < pds then s2 + 25
      else if direction == TradeDirection.SHORT ∧ pds < 30 then s2 + 25
      else if (direction == TradeDirection.LONG ∧ 50 < pds) ∨
              (direction == TradeDirection.SHORT ∧ pds < 50) then s2 + 10
      else s2
    | none => s2
  let bestOB := firstMaxBy (fun ob => ob.strength)
    (orderBlocks.filter (fun ob => !ob.mitigated &&
      ob.type == (if direction == TradeDirection.LONG then OBKind.BULLISH else OBKind.BEARISH)))
  let s4 :=
    match bestOB with
    | some ob => if 70 < ob.strength then s3 + 10 else s3
    | none => s3
  { agent := AgentName.ARRAY, score := clamp01 s4,
    bullish := direction == TradeDirection.LONG, weight := WEIGHT_ARRAY }

-- ─── agents.ts: Risk Guardian ───

/-- Hard-gate test of the Risk Guardian: balance below 30 or the session
trade cap (2) reached. -/
def riskBlocked (balance : ℚ) (tradesThisSession : Nat) : Bool :=
  decide (balance < 30) || decide (2 ≤ tradesThisSession)

/-- Denominator of the reward:risk quotient (entry minus stop). -/
def riskRRDenom (entryPrice stopLoss : ℚ) : ℚ := |entryPrice - stopLoss|

/-- Reward:risk quotient used by the Risk Guardian and the backtest. -/
def riskRR (entryPrice stopLoss tp1 : ℚ) : ℚ :=
  |tp1 - entryPrice| / riskRRDenom entryPrice stopLoss

/-- runRiskAgent from agents.ts. -/
def runRiskAgent (killzone : Option Killzone) (balance : ℚ) (tradesThisSession : Nat)
    (entryPrice stopLoss tp1 : ℚ) (newsInWindow : Bool) : AgentSignal :=
  if riskBlocked balance tradesThisSession then
    { agent := AgentName.RISK, score := 0, bullish := false, weight := WEIGHT_RISK }
  else
    let s1 :=
      match killzone with
      | some kz =>
        if kz.active then
          let t1 := (40 : ℚ)
          let t2 := if kz.name == KZName.NYKZ then t1 + 10 else t1
          if kz.minutesRemaining.getD 999 < 15 then t2 - 15 else t2
        else (-30 : ℚ)
      | none => -30
    let rr := riskRR entryPrice stopLoss tp1
    let s2 := if 3 ≤ rr then s1 + 25 else if 2 ≤ rr then s1 + 15 else s1 - 20
    let s3 := if newsInWindow then s2 - 20 else s2
    let s4 := if tradesThisSession = 0 then s3 + 10 else s3
    let score := clamp01 s4
    { agent := AgentName.RISK, score := score, bullish := decide (50 < score),
      weight := WEIGHT_RISK }

-- ─── agents.ts: Execution Optimizer ───

/-- runExecutionAgent from agents.ts. -/
def runExecutionAgent (candles : List Candle) (entryPrice stopLoss tp1 tp2 : ℚ)
    (direction : TradeDirection) (fvgMidpoint obEdge : Option ℚ) : AgentSignal :=
  let s1 :=
    match fvgMidpoint with
    | some m =>
      let distFromFVG := |entryPrice - m| / entryPrice * 100
      if distFromFVG < 0.1 then (30 : ℚ)
      else if distFromFVG < 0.3 then 20
      else 10
    | none =>
      match obEdge with
      | some o =>
        let distFromOB := |entryPrice - o| / entryPrice * 100
        if distFromOB < 0.2 then (25 : ℚ) else 10
      | none => 0
  let slPct := |entryPrice - stopLoss| / entryPrice * 100
  let s2 :=
    if 0.5 ≤ slPct ∧ slPct ≤ 1.5 then s1 + 20
    else if slPct < 0.3 then s1 - 15
    else if 2.5 < slPct then s1 - 10
    else s1
  let rr1 := |tp1 - entryPrice| / |entryPrice - stopLoss|
  let rr2 := |tp2 - entryPrice| / |entryPrice - stopLoss|
  let s3 := if 2 ≤ rr1 then s2 + 20 else s2
  let s4 := if 3 ≤ rr2 then s3 + 15 else s3
  let last3 := lastN 3 candles
  let momentum := last3.countP (fun c =>
    if direction == TradeDirection.LONG then decide (c.open_ < c.close)
    else decide (c.close < c.open_))
  let s5 := if 2 ≤ momentum then s4 + 15 else s4
  { agent := AgentName.EXECUTION, score := clamp01 s5,
    bullish := direction == TradeDirection.LONG, weight := WEIGHT_EXECUTION }

-- ─── agents.ts: council consensus ───

/-- Total evaluator weight, the divisor of the consensus average. -/
def councilTotalWeight (agents : List AgentSignal) : ℚ :=
  agents.foldl (fun s a => s + a.weight) 0

/-- Weight-sum of the evaluators voting bullish. -/
def councilBullishVotes (agents : List AgentSignal) : ℚ :=
  (agents.filter (fun a => a.bullish)).foldl (fun s a => s + a.weight) 0

/-- The exact weighted average computed by runCouncil before rounding. -/
def councilConsensus (agents : List AgentSignal) : ℚ :=
  (agents.foldl (fun s a => s + a.score * a.weight) 0) / councilTotalWeight agents

/-- Grade step function applied to the unrounded consensus score. -/
def gradeOf (consensusScore : ℚ) : SetupGrade :=
  if 90 ≤ consensusScore then SetupGrade.Aplus
  else if 80 ≤ consensusScore then SetupGrade.A
  else if 65 ≤ consensusScore then SetupGrade.B
  else SetupGrade.C

/-- runCouncil from agents.ts: weighted consensus, grade, direction vote.
The consensusScore field of the returned record is Math.round of the
weighted average; the grade is computed from the unrounded average. -/
def runCouncil (agents : List AgentSignal) : AgentCouncil :=
  let consensusScore := councilConsensus agents
  let bullishVotes := councilBullishVotes agents
  { agents := agents,
    consensusScore := jsRound consensusScore,
    grade := gradeOf consensusScore,
    direction :=
      if 0.6 < bullishVotes then some TradeDirection.LONG
      else if bullishVotes < 0.4 then some TradeDirection.SHORT
      else none }

-- ─── useKillzone.ts: backtest engine ───

inductive TradeOutcome
  | TP1_HIT | TP2_HIT | SL_HIT
deriving DecidableEq, Repr, Inhabited

structure Trade where
  direction : TradeDirection
  grade : SetupGrade
  entry : ℚ
  stopLoss : ℚ
  tp1 : ℚ
  tp2 : ℚ
  killzone : KZName
  council : AgentCouncil
  status : TradeOutcome
  closePrice : ℚ
  positionSize : ℚ
  pnl : ℚ
deriving DecidableEq, Repr, Inhabited

structure BacktestConfig where
  initialBalance : ℚ
  riskPerTrade : ℚ
  timeframe : Timeframe
deriving DecidableEq, Repr, Inhabited

/-- Outcome resolution loop of runBacktest (per future candle, in priority
order: target 2, then target 1, then stop; default stop-hit at the stop). -/
def resolveOutcome (direction : TradeDirection) (tp1 tp2 sl : ℚ) :
    List Candle → TradeOutcome × ℚ
  | [] => (TradeOutcome.SL_HIT, sl)
  | fc :: rest =>
    if direction == TradeDirection.LONG then
      if tp2 ≤ fc.high then (TradeOutcome.TP2_HIT, tp2)
      else if tp1 ≤ fc.high then (TradeOutcome.TP1_HIT, tp1)
      else if fc.low ≤ sl then (TradeOutcome.SL_HIT, sl)
      else resolveOutcome direction tp1 tp2 sl rest
    else
      if fc.low ≤ tp2 then (TradeOutcome.TP2_HIT, tp2)
      else if fc.low ≤ tp1 then (TradeOutcome.TP1_HIT, tp1)
      else if sl ≤ fc.high then (TradeOutcome.SL_HIT, sl)
      else resolveOutcome direction tp1 tp2 sl rest

/-- Future candles scanned when resolving a trade entered at index i:
indices i+1 up to (exclusive) min(i+50, length). -/
def futureWindow (candles : List Candle) (i : Nat) : List Candle :=
  (candles.drop (i + 1)).take 49

/-- The Risk Guardian invocation made by the backtest loop: session trade
count 0 and news flag false are passed on every call. -/
def backtestRiskCall (kz : Option Killzone) (balance entry sl tp1 : ℚ) : AgentSignal :=
  runRiskAgent kz balance 0 entry sl tp1 false

/-- One evaluated index of the backtest loop: returns the taken trade and
the updated balance, or none when any filter rejects. -/
def backtestStep (kzOf : ℚ → Option Killzone) (cfg : BacktestConfig)
    (candles : List Candle) (i : Nat) (balance : ℚ) : Option (Trade × ℚ) :=
  let slice := candles.take (i + 1)
  let lastCandle := slice.getLastD default
  match kzOf lastCandle.time with
  | none => none
  | some kz =>
    if i % 15 ≠ 0 then none
    else
      let swings := detectSwings slice 5 5
      let structurePts := detectMarketStructure slice swings
      let obs := detectOrderBlocks slice structurePts cfg.timeframe
      let fvgs := detectFVGs slice cfg.timeframe 0.05
      let pdArr := calcPDArray swings lastCandle.close
      let levels := detectLiquiditySweeps slice cfg.timeframe 5 5
      let setups := detectSweepFVGSetups slice levels 0.03
      match setups with
      | [] => none
      | setup :: _ =>
        let direction := setup.direction
        let entry := setup.fvgEntry
        let sl := setup.stopLoss
        let atr := lastCandle.close * 0.008
        let tp1 := if direction == TradeDirection.LONG then entry + atr * 2.5
                   else entry - atr * 2.5
        let tp2 := if direction == TradeDirection.LONG then entry + atr * 5
                   else entry - atr * 5
        let rr := riskRR entry sl tp1
        if rr < 2 then none
        else
          let agents := [
            runStructureAgent slice structurePts direction,
            runLiquidityAgent levels lastCandle.close direction,
            runArrayAgent obs fvgs pdArr lastCandle.close direction,
            backtestRiskCall (some kz) balance entry sl tp1,
            runExecutionAgent slice entry sl tp1 tp2 direction (some setup.fvgEntry) none]
          let council := runCouncil agents
          if council.grade = SetupGrade.Aplus ∨ council.grade = SetupGrade.A then
            let riskAmt := balance * cfg.riskPerTrade / 100
            let posSize := riskAmt / |entry - sl|
            let res := resolveOutcome direction tp1 tp2 sl (futureWindow candles i)
            let pnl := if direction == TradeDirection.LONG
              then (res.2 - entry) * posSize else (entry - res.2) * posSize
            some ({ direction := direction, grade := council.grade, entry := entry,
                    stopLoss := sl, tp1 := tp1, tp2 := tp2, killzone := kz.name,
                    council := council, status := res.1, closePrice := res.2,
                    positionSize := posSize, pnl := pnl }, balance + pnl)
          else none

/-- Walk-forward loop of runBacktest: advance one candle at a time, skip
20 extra candles after a taken trade. -/
def backtestLoop (kzOf : ℚ → Option Killzone) (cfg : BacktestConfig)
    (candles : List Candle) (i : Nat) (balance : ℚ) (acc : List Trade) : List Trade :=
  if h : i < candles.length - 5 then
    match backtestStep kzOf cfg candles i balance with
    | none => backtestLoop kzOf cfg candles (i + 1) balance acc
    | some tb => backtestLoop kzOf cfg candles (i + 21) tb.2 (acc ++ [tb.1])
  else acc
termination_by candles.length - 5 - i
decreasing_by all_goals omega

def notEnoughCandlesMsg : String := "Not enough candles for backtest"

/-- runBacktest from useKillzone.ts: hard failure below 100 candles, else
the walk-forward simulation from warm-up index 50. -/
def runBacktest (kzOf : ℚ → Option Killzone) (candles : List Candle)
    (cfg : BacktestConfig) : Except String (List Trade) :=
  if candles.length < 100 then Except.error notEnoughCandlesMsg
  else Except.ok (backtestLoop kzOf cfg candles 50 cfg.initialBalance [])

-- ─── useKillzone.ts: calcMetrics ───

/-- Gross win: summed pnl of the winning trades. -/
def calcGrossWin (trades : List Trade) : ℚ :=
  (trades.filter (fun t => decide (0 < t.pnl))).foldl (fun s t => s + t.pnl) 0

/-- Gross loss: absolute summed pnl of the losing trades. -/
def calcGrossLoss (trades : List Trade) : ℚ :=
  |(trades.filter (fun t => decide (t.pnl ≤ 0))).foldl (fun s t => s + t.pnl) 0|

structure BacktestMetrics where
  totalTrades : Nat
  wins : Nat
  losses : Nat
  winRate : ℚ
  profitFactor : ℚ
  maxDrawdown : ℚ
  totalPnl : ℚ
deriving DecidableEq, Repr, Inhabited

/-- Running peak-balance drawdown walk over the trade sequence. -/
def drawdownWalk (initial : ℚ) (trades : List Trade) : ℚ :=
  (trades.foldl (fun st t =>
    let bal := st.1 + t.pnl
    let peak := max st.2.1 bal
    (bal, peak, max st.2.2 (peak - bal))) (initial, initial, 0)).2.2

/-- calcMetrics from useKillzone.ts, restricted to the exactly-representable
fields (the Sharpe-like ratio takes a real square root and the per-session
breakdown only re-buckets the same totals; both are omitted). -/
def calcMetrics (trades : List Trade) (cfg : BacktestConfig) : BacktestMetrics :=
  let wins := trades.filter (fun t => decide (0 < t.pnl))
  let losses := trades.filter (fun t => decide (t.pnl ≤ 0))
  let grossWin := calcGrossWin trades
  let grossLoss := calcGrossLoss trades
  let totalPnl := trades.foldl (fun s t => s + t.pnl) 0
  { totalTrades := trades.length,
    wins := wins.length,
    losses := losses.length,
    winRate := if trades.length ≠ 0 then (wins.length : ℚ) / (trades.length : ℚ) * 100 else 0,
    profitFactor :=
      if 0 < grossLoss then grossWin / grossLoss
      else if 0 < grossWin then 999
      else 0,
    maxDrawdown := drawdownWalk cfg.initialBalance trades,
    totalPnl := totalPnl }

-- ─── Spec-side characterization used for refinement (backtest outcome) ───

/-- Per-candle outcome check in the priority order stated by the spec:
target 2, then target 1, then stop (mirrored for SHORT). -/
def specOutcomeOfCandle (direction : TradeDirection) (tp1 tp2 sl : ℚ) (fc : Candle) :
    Option (TradeOutcome × ℚ) :=
  if direction == TradeDirection.LONG then
    if tp2 ≤ fc.high then some (TradeOutcome.TP2_HIT, tp2)
    else if tp1 ≤ fc.high then some (TradeOutcome.TP1_HIT, tp1)
    else if fc.low ≤ sl then some (TradeOutcome.SL_HIT, sl)
    else none
  else
    if fc.low ≤ tp2 then some (TradeOutcome.TP2_HIT, tp2)
    else if fc.low ≤ tp1 then some (TradeOutcome.TP1_HIT, tp1)
    else if sl ≤ fc.high then some (TradeOutcome.SL_HIT, sl)
    else none

-- ─── Concrete example inputs ───

/-- Shorthand candle constructor (time, open, high, low, close, volume). -/
def mkCandle (t o h l c v : ℚ) : Candle := ⟨t, o, h, l, c, v⟩

/-- Five candles whose highs are 10, 12, 15, 11, 9 (spec scenario). -/
def exSwingCandles : List Candle :=
  [mkCandle 0 10 10 9 10 1, mkCandle 1 12 12 11 12 1, mkCandle 2 15 15 14 15 1,
   mkCandle 3 11 11 10 11 1, mkCandle 4 9 9 8 9 1]

/-- Agent list with the fixed weights and scores 80, 70, 60, 50, 40. -/
def exAgents63 : List AgentSignal :=
  [⟨AgentName.STRUCTURE, 80, true, 0.25⟩, ⟨AgentName.LIQUIDITY, 70, true, 0.25⟩,
   ⟨AgentName.ARRAY, 60, true, 0.20⟩, ⟨AgentName.RISK, 50, false, 0.15⟩,
   ⟨AgentName.EXECUTION, 40, false, 0.15⟩]

/-- Agent list with the fixed weights and scores 81, 70, 60, 50, 40, whose
weighted average 63.25 is not an integer. -/
def exAgents6325 : List AgentSignal :=
  [⟨AgentName.STRUCTURE, 81, true, 0.25⟩, ⟨AgentName.LIQUIDITY, 70, true, 0.25⟩,
   ⟨AgentName.ARRAY, 60, true, 0.20⟩, ⟨AgentName.RISK, 50, false, 0.15⟩,
   ⟨AgentName.EXECUTION, 40, false, 0.15⟩]

/-- Candle series producing one bullish FVG (top 110, bottom 100) whose
forward scan penetrates 0, then 5, then 1 points into the gap. -/
def exFillCandles : List Candle :=
  [mkCandle 0 95 100 90 95 1, mkCandle 1 102 105 99 102 1, mkCandle 2 112 120 110 112 1,
   mkCandle 3 108 112 105 108 1, mkCandle 4 110 111 109 110 1]

/-- The single raw gap produced by exFillCandles. -/
def exFVG0 : FairValueGap :=
  { type := OBKind.BULLISH, top := 110, bottom := 100, midpoint := 105, time := 1,
    filled := false, fillPercent := 0, timeframe := Timeframe.m15 }

/-- A bullish structure event at time 3 breaking price 103. -/
def exSP : StructurePoint :=
  ⟨3, 103, StructureKind.BOS_BULL, true, mkCandle 3 100 103 99 102 0⟩

/-- Candle series in which the order block derived from exSP carries
volume strength 100 plus move strength 30, and is later mitigated. -/
def exOBCandles : List Candle :=
  [mkCandle 0 100 101 99 100 0, mkCandle 1 100 101 99 100 0, mkCandle 2 101 100 98 99 1000,
   mkCandle 3 100 103 99 102 0, mkCandle 4 99 99 97 98 0]

/-- The order block produced by exOBCandles and exSP: strength 130. -/
def exOB130 : OrderBlock :=
  ⟨OBKind.BULLISH, 101, 98, 2, true, some 4, 1000, 130, Timeframe.m15⟩

/-- A PD array whose premium and discount coincide (zero-width band). -/
def exFlatPD : PDArray := ⟨10, 0, 5, 5, 5, OBKind.BULLISH, 50⟩

/-- An active New York killzone with an hour remaining. -/
def exKZNY : Option Killzone := some ⟨KZName.NYKZ, true, some 60⟩

/-- A backtest configuration (balance 100, risk 1 percent, 15m). -/
def exCfg : BacktestConfig := ⟨100, 1, Timeframe.m15⟩

/-- A finished trade with profit 100 and otherwise default fields. -/
def exTradeWin : Trade := { (default : Trade) with pnl := 100 }

end Quentrex

-- ─── Helper lemmas ───

namespace Quentrex

/-- Folding addition of a mapped value equals the initial value plus the
sum of the mapped list. -/
theorem foldl_add_map_sum {α : Type} (f : α → ℚ) (l : List α) (c : ℚ) :
    l.foldl (fun s a => s + f a) c = c + (l.map f).sum := by
  induction l generalizing c with
  | nil => simp
  | cons a t ih => simp only [List.foldl_cons, List.map_cons, List.sum_cons, ih]; ring

/-- jsRound is bounded above by any integer bound on its argument. -/
theorem jsRound_le_of_le (x : ℚ) (c : ℤ) (h : x ≤ c) : jsRound x ≤ c := by
  have : ⌊x + 1/2⌋ ≤ c ↔ x + 1/2 < c + 1 := Int.floor_le_iff
  rw [jsRound, this]
  linarith

/-- jsRound is bounded below by any integer bound below its argument. -/
theorem le_jsRound_of_le (x : ℚ) (c : ℤ) (h : (c : ℚ) ≤ x) : c ≤ jsRound x := by
  refine Int.le_floor.mpr ?_
  linarith

end Quentrex

-- ─── Claim theorems ───

namespace Quentrex

/-- C5: for every list of agent signals, the council direction is LONG
when the weight-sum of bullish evaluators exceeds 0.6, SHORT when it is
below 0.4, and null (a valid terminal state, not an error) otherwise. -/
theorem c5_direction_vote (agents : List AgentSignal) :
    councilBullishVotes agents =
      ((agents.filter (fun a => a.bullish)).map (fun a => a.weight)).sum ∧
    (runCouncil agents).direction =
      (if 0.6 < councilBullishVotes agents then some TradeDirection.LONG
       else if councilBullishVotes agents < 0.4 then some TradeDirection.SHORT
       else none) := by
  constructor
  · rw [councilBullishVotes, foldl_add_map_sum]
    ring
  · rfl

/-- C7: on insufficient input the backtest simulator alone fails hard
(error below 100 candles), while the structure analyzer returns an empty
event list below 4 swings and the premium/discount calculator returns
none when either required swing set is empty. -/
theorem c7_insufficient_data :
    (∀ (kzOf : ℚ → Option Killzone) (candles : List Candle) (cfg : BacktestConfig),
      candles.length < 100 →
        runBacktest kzOf candles cfg = Except.error notEnoughCandlesMsg) ∧
    (∀ (candles : List Candle) (swings : List SwingPoint),
      swings.length < 4 → detectMarketStructure candles swings = []) ∧
    (∀ (swings : List SwingPoint) (currentPrice : ℚ),
      swings.filter (fun s => s.type == SwingType.HIGH) = [] ∨
      swings.filter (fun s => s.type == SwingType.LOW) = [] →
        calcPDArray swings currentPrice = none) := by
  refine ⟨fun kzOf candles cfg h => ?_, fun candles swings h => ?_,
    fun swings currentPrice h => ?_⟩
  · rw [runBacktest, if_pos h]
  · rw [detectMarketStructure, if_pos h]
  · rcases h with h | h <;> simp [calcPDArray, lastN, h]

/-- C7 witness: concrete instances of all three behaviors. -/
theorem c7_witness :
    runBacktest (fun _ => none) [] exCfg = Except.error notEnoughCandlesMsg ∧
    detectMarketStructure [] [] = [] ∧
    calcPDArray [] 0 = none :=
  ⟨c7_insufficient_data.1 (fun _ => none) [] exCfg (by decide),
   c7_insufficient_data.2.1 [] [] (by decide),
   c7_insufficient_data.2.2 [] 0 (Or.inl rfl)⟩

/-- C8: the profit factor is gross wins over gross losses when gross
losses are positive, the sentinel 999 when gross losses are zero and
gross wins positive, and 0 when both are zero; gross loss is never
negative, so these cases are exhaustive. -/
theorem c8_profit_factor (trades : List Trade) (cfg : BacktestConfig) :
    0 ≤ calcGrossLoss trades ∧
    (0 < calcGrossLoss trades →
      (calcMetrics trades cfg).profitFactor = calcGrossWin trades / calcGrossLoss trades) ∧
    (calcGrossLoss trades = 0 → 0 < calcGrossWin trades →
      (calcMetrics trades cfg).profitFactor = 999) ∧
    (calcGrossLoss trades = 0 → calcGrossWin trades = 0 →
      (calcMetrics trades cfg).profitFactor = 0) := by
  refine ⟨abs_nonneg _, fun h => ?_, fun h h2 => ?_, fun h h2 => ?_⟩
  · simp only [calcMetrics]
    rw [if_pos h]
  · simp only [calcMetrics]
    rw [if_neg (by linarith), if_pos h2]
  · simp only [calcMetrics]
    rw [if_neg (by linarith), if_neg (by linarith)]

/-- C8 witness: gross wins 100 with gross losses 0 gives the sentinel
999; an empty trade list gives 0. -/
theorem c8_witness :
    (calcMetrics [exTradeWin] exCfg).profitFactor = 999 ∧
    (calcMetrics [] exCfg).profitFactor = 0 :=
  ⟨(c8_profit_factor [exTradeWin] exCfg).2.2.1 (by with_unfolding_all decide)
      (by with_unfolding_all decide),
   (c8_profit_factor [] exCfg).2.2.2 (by with_unfolding_all decide)
      (by with_unfolding_all decide)⟩

/-- C9 (amended): the pdScore division is guarded by its branch order (a
zero-width band returns 0 or 100, and the interpolation branch only runs
with a positive denominator), and the council weight-sum divisor is
positive for any nonempty list of positive-weight evaluators; but the
consensus aggregator and the Risk evaluator divide without any guard, so
a zero denominator (empty agent list, entry equal to stop) reaches the
division (see the counterexample). -/
theorem c9_division_guards :
    (∀ (pd : PDArray) (price : ℚ), pd.premium = pd.discount →
      pdScore pd price = 0 ∨ pdScore pd price = 100) ∧
    (∀ (pd : PDArray) (price : ℚ), pd.discount < price → price < pd.premium →
      0 < pd.premium - pd.discount) ∧
    (∀ agents : List AgentSignal, agents ≠ [] → (∀ a ∈ agents, 0 < a.weight) →
      0 < councilTotalWeight agents) := by
  refine ⟨fun pd price h => ?_, fun pd price h1 h2 => by linarith,
    fun agents hne hpos => ?_⟩
  · rw [pdScore]
    by_cases hp : pd.premium ≤ price
    · rw [if_pos hp]; left; rfl
    · rw [if_neg hp, if_pos (by linarith)]; right; rfl
  · rw [councilTotalWeight, foldl_add_map_sum, zero_add]
    apply List.sum_pos
    · intro w hw
      obtain ⟨a, ha, rfl⟩ := List.mem_map.mp hw
      exact hpos a ha
    · simpa using hne

/-- C9 witness: the guards at work on a zero-width band and on the five
standard fixed weights. -/
theorem c9_witness :
    (pdScore exFlatPD 7 = 0 ∨ pdScore exFlatPD 7 = 100) ∧
    0 < councilTotalWeight exAgents63 :=
  ⟨c9_division_guards.1 exFlatPD 7 rfl,
   c9_division_guards.2.2 exAgents63 (by decide) (by with_unfolding_all decide)⟩

/-- C9 counterexample: the consensus divisor is 0 for an empty agent
list, and the reward:risk denominator is 0 when entry equals stop while
the hard gates do not block (balance 50, zero session trades), so both
divisions run with a zero denominator instead of returning a guarded
default. -/
theorem c9_counterexample :
    councilTotalWeight [] = 0 ∧
    riskRRDenom 100 100 = 0 ∧
    riskBlocked 50 0 = false := by
  refine ⟨rfl, ?_, rfl⟩
  simp [riskRRDenom]

/-- C10: the backtest always invokes the Risk evaluator with session
trade count 0 and news flag false; with those arguments the max-trades
gate is unreachable (only balance below 30 blocks), the news penalty
never applies, and the +10 first-trade bonus is added on every
non-blocked evaluation. -/
theorem c10_backtest_risk_call :
    (∀ (kz : Option Killzone) (bal e sl tp : ℚ),
      backtestRiskCall kz bal e sl tp = runRiskAgent kz bal 0 e sl tp false) ∧
    (∀ bal : ℚ, riskBlocked bal 0 = decide (bal < 30)) ∧
    (∀ (kz : Option Killzone) (bal e sl tp : ℚ), bal < 30 →
      (backtestRiskCall kz bal e sl tp).score = 0) ∧
    (∀ (kz : Option Killzone) (bal e sl tp : ℚ), ¬ bal < 30 →
      (backtestRiskCall kz bal e sl tp).score =
        clamp01 ((match kz with
          | some k =>
            if k.active then
              40 + (if k.name == KZName.NYKZ then (10 : ℚ) else 0) +
                (if k.minutesRemaining.getD 999 < 15 then -15 else 0)
            else -30
          | none => -30) +
          (if 3 ≤ riskRR e sl tp then (25 : ℚ)
           else if 2 ≤ riskRR e sl tp then 15 else -20) + 10)) := by
  refine ⟨fun kz bal e sl tp => rfl, fun bal => ?_, fun kz bal e sl tp h => ?_,
    fun kz bal e sl tp h => ?_⟩
  · simp [riskBlocked]
  · have hb : riskBlocked bal 0 = true := by simp [riskBlocked, h]
    unfold backtestRiskCall runRiskAgent
    rw [if_pos hb]
  · have hb : riskBlocked bal 0 = false := by simp [riskBlocked, h]
    unfold backtestRiskCall runRiskAgent
    rw [if_neg (by rw [hb]; exact Bool.false_ne_true)]
    rcases kz with _ | k <;>
      · norm_num
        split_ifs <;> ring_nf

/-- C10 witness: an active NYKZ killzone with 60 minutes left, balance
100, entry 100, stop 99, target 102 scores 40 + 10 + 15 + 10 = 75. -/
theorem c10_witness : (backtestRiskCall exKZNY 100 100 99 102).score = 75 := by
  rw [c10_backtest_risk_call.2.2.2 exKZNY 100 100 99 102 (by norm_num)]
  with_unfolding_all decide

/-- C6: the backtest resolves each taken trade by scanning the future
window (at most 49, hence at most 50, candles), checking per candle in
priority order target 2, target 1, stop, and defaulting to a stop hit at
the stop price when nothing triggers. -/
theorem c6_outcome_resolution :
    (∀ (direction : TradeDirection) (tp1 tp2 sl : ℚ) (window : List Candle),
      resolveOutcome direction tp1 tp2 sl window =
        (window.findSome? (specOutcomeOfCandle direction tp1 tp2 sl)).getD
          (TradeOutcome.SL_HIT, sl)) ∧
    (∀ (candles : List Candle) (i : Nat), (futureWindow candles i).length ≤ 50) := by
  constructor
  · intro direction tp1 tp2 sl window
    induction window with
    | nil => rfl
    | cons fc rest ih =>
      rw [resolveOutcome, List.findSome?_cons]
      rcases direction with _ | _ <;>
        · simp only [specOutcomeOfCandle]
          split_ifs <;> simp [ih]
  · intro candles i
    simp only [futureWindow, List.length_take, List.length_drop]
    omega

end Quentrex

namespace Quentrex

/-- C1 (amended): for five agent signals carrying the fixed weights and
scores in [0,100], the exact weighted average equals the claimed formula
and lies in [0,100]; the grade is the step function of that unrounded
average (65, 80, 90 give B, A, A+); the consensusScore field of the
returned council is the weighted average rounded to the nearest integer,
which also lies in [0,100]. -/
theorem c1_consensus_amended (s1 s2 s3 s4 s5 avg : ℚ) (b1 b2 b3 b4 b5 : Bool)
    (agents : List AgentSignal)
    (hA : agents = [⟨AgentName.STRUCTURE, s1, b1, 0.25⟩, ⟨AgentName.LIQUIDITY, s2, b2, 0.25⟩,
                    ⟨AgentName.ARRAY, s3, b3, 0.20⟩, ⟨AgentName.RISK, s4, b4, 0.15⟩,
                    ⟨AgentName.EXECUTION, s5, b5, 0.15⟩])
    (havg : avg = (s1 * 0.25 + s2 * 0.25 + s3 * 0.20 + s4 * 0.15 + s5 * 0.15) /
                  (0.25 + 0.25 + 0.20 + 0.15 + 0.15))
    (h1 : 0 ≤ s1) (h1b : s1 ≤ 100) (h2 : 0 ≤ s2) (h2b : s2 ≤ 100)
    (h3 : 0 ≤ s3) (h3b : s3 ≤ 100) (h4 : 0 ≤ s4) (h4b : s4 ≤ 100)
    (h5 : 0 ≤ s5) (h5b : s5 ≤ 100) :
    councilConsensus agents = avg ∧
    (runCouncil agents).consensusScore = jsRound avg ∧
    (runCouncil agents).grade =
      (if 90 ≤ avg then SetupGrade.Aplus else if 80 ≤ avg then SetupGrade.A
       else if 65 ≤ avg then SetupGrade.B else SetupGrade.C) ∧
    0 ≤ avg ∧ avg ≤ 100 ∧
    0 ≤ (runCouncil agents).consensusScore ∧ (runCouncil agents).consensusScore ≤ 100 := by
  subst hA
  have hcc : councilConsensus
      [⟨AgentName.STRUCTURE, s1, b1, 0.25⟩, ⟨AgentName.LIQUIDITY, s2, b2, 0.25⟩,
       ⟨AgentName.ARRAY, s3, b3, 0.20⟩, ⟨AgentName.RISK, s4, b4, 0.15⟩,
       ⟨AgentName.EXECUTION, s5, b5, 0.15⟩] = avg := by
    subst havg
    simp only [councilConsensus, councilTotalWeight, List.foldl_cons, List.foldl_nil]
    norm_num
  have havgBounds : 0 ≤ avg ∧ avg ≤ 100 := by
    subst havg
    constructor
    · rw [div_nonneg_iff]
      left
      constructor <;> norm_num <;> linarith
    · rw [div_le_iff₀ (by norm_num)]
      norm_num
      linarith
  refine ⟨hcc, ?_, ?_, havgBounds.1, havgBounds.2, ?_, ?_⟩
  · show jsRound (councilConsensus _) = jsRound avg
    rw [hcc]
  · show gradeOf (councilConsensus _) = _
    rw [hcc, gradeOf]
  · show (0 : ℤ) ≤ jsRound (councilConsensus _)
    rw [hcc]
    exact le_jsRound_of_le avg 0 (by exact_mod_cast havgBounds.1)
  · show jsRound (councilConsensus _) ≤ 100
    rw [hcc]
    exact jsRound_le_of_le avg 100 (by exact_mod_cast havgBounds.2)

/-- C1 witness: scores 80, 70, 60, 50, 40 give weighted average exactly
63 and grade C (the spec scenario). -/
theorem c1_witness :
    councilConsensus exAgents63 = 63 ∧ (runCouncil exAgents63).grade = SetupGrade.C := by
  have h := c1_consensus_amended 80 70 60 50 40 63 true true true false false exAgents63
    rfl (by norm_num) (by norm_num) (by norm_num) (by norm_num) (by norm_num) (by norm_num)
    (by norm_num) (by norm_num) (by norm_num) (by norm_num) (by norm_num)
  refine ⟨h.1, ?_⟩
  rw [h.2.2.1]
  norm_num

/-- C1 counterexample: with scores 81, 70, 60, 50, 40 the weighted
average is 63.25, but the returned consensusScore field is the rounded
value 63, so the consensus score the council reports is not equal to the
weighted average. -/
theorem c1_counterexample :
    councilConsensus exAgents6325 = 253/4 ∧
    (runCouncil exAgents6325).consensusScore = 63 ∧
    ((runCouncil exAgents6325).consensusScore : ℚ) ≠ councilConsensus exAgents6325 := by
  refine ⟨?_, ?_, ?_⟩ <;> with_unfolding_all decide

end Quentrex

namespace Quentrex

/-- The mitigation pass only changes the mitigation flags, never the
strength. -/
theorem mitigateOB_strength (candles : List Candle) (ob : OrderBlock) :
    (mitigateOB candles ob).strength = ob.strength := by
  unfold mitigateOB
  split <;> (dsimp only; split <;> rfl)

/-- Every candidate order block carries a strength of the shape
round(min(100, volume term) + min(50, move term)). -/
theorem mkOrderBlock_strength_form (candles : List Candle) (av : ℚ) (tf : Timeframe)
    (sp : StructurePoint) (b : OrderBlock)
    (h : mkOrderBlock candles av tf sp = some b) :
    ∃ v m : ℚ, b.strength = jsRound (min 100 v + min 50 m) := by
  rw [mkOrderBlock] at h
  rcases hidx : candles.findIdx? (fun c => decide (sp.time ≤ c.time)) with _ | spIdx
  · rw [hidx] at h
    dsimp only at h
    cases h
  · rw [hidx] at h
    dsimp only at h
    by_cases h3 : spIdx < 3
    · rw [if_pos h3] at h
      cases h
    · rw [if_neg h3] at h
      by_cases hbull : sp.type.isBull
      · rw [if_pos hbull] at h
        obtain ⟨j, hj, hfj⟩ := List.exists_of_findSome?_eq_some h
        by_cases hc : (candles.getD j default).close < (candles.getD j default).open_
        · rw [if_pos hc] at hfj
          obtain rfl := (Option.some.injEq _ _).mp hfj
          exact ⟨_, _, rfl⟩
        · rw [if_neg hc] at hfj
          cases hfj
      · rw [if_neg hbull] at h
        obtain ⟨j, hj, hfj⟩ := List.exists_of_findSome?_eq_some h
        by_cases hc : (candles.getD j default).open_ < (candles.getD j default).close
        · rw [if_pos hc] at hfj
          obtain rfl := (Option.some.injEq _ _).mp hfj
          exact ⟨_, _, rfl⟩
        · rw [if_neg hc] at hfj
          cases hfj

/-- C2 (amended): order-block strengths are not clamped to [0,100]; the
returned blocks satisfy 21 <= strength <= 150 (volume term capped at 100
plus move term capped at 50, blocks of strength at most 20 discarded),
and breaker blocks derived from them satisfy 41 <= strength <= 170. -/
theorem c2_strength_bounds :
    (∀ (candles : List Candle) (sps : List StructurePoint) (tf : Timeframe)
       (b : OrderBlock), b ∈ detectOrderBlocks candles sps tf →
         21 ≤ b.strength ∧ b.strength ≤ 150) ∧
    (∀ (candles : List Candle) (sps : List StructurePoint) (tf : Timeframe)
       (b : OrderBlock), b ∈ detectBreakerBlocks (detectOrderBlocks candles sps tf) candles →
         41 ≤ b.strength ∧ b.strength ≤ 170) := by
  have hOB : ∀ (candles : List Candle) (sps : List StructurePoint) (tf : Timeframe)
      (b : OrderBlock), b ∈ detectOrderBlocks candles sps tf →
        21 ≤ b.strength ∧ b.strength ≤ 150 := by
    intro candles sps tf b hmem
    rw [detectOrderBlocks] at hmem
    obtain ⟨hmem2, hpred⟩ := List.mem_filter.mp hmem
    have hlow : 20 < b.strength := by exact_mod_cast of_decide_eq_true hpred
    obtain ⟨b0, hb0, rfl⟩ := List.mem_map.mp hmem2
    obtain ⟨sp, hsp, hmk⟩ := List.mem_filterMap.mp hb0
    obtain ⟨v, m, hform⟩ := mkOrderBlock_strength_form _ _ _ _ _ hmk
    rw [mitigateOB_strength] at hlow ⊢
    rw [hform] at hlow ⊢
    refine ⟨by omega, ?_⟩
    apply jsRound_le_of_le
    push_cast
    have hv : min (100 : ℚ) v ≤ 100 := min_le_left _ _
    have hm : min (50 : ℚ) m ≤ 50 := min_le_left _ _
    linarith
  refine ⟨hOB, fun candles sps tf b hmem => ?_⟩
  rw [detectBreakerBlocks] at hmem
  obtain ⟨b0, hb0, rfl⟩ := List.mem_map.mp hmem
  obtain ⟨hb0m, _⟩ := List.mem_filter.mp hb0
  have := hOB candles sps tf b0 hb0m
  constructor <;> simp only [] <;> omega

/-- C2 witness: the concrete strength-130 block obeys the amended
bounds. -/
theorem c2_witness : 21 ≤ exOB130.strength ∧ exOB130.strength ≤ 150 :=
  c2_strength_bounds.1 exOBCandles [exSP] Timeframe.m15 exOB130
    (by set_option maxRecDepth 4000 in with_unfolding_all decide)

/-- C2 counterexample: a candle sequence and structure-event list whose
detected order block has strength 130 and whose breaker block has
strength 150, both outside [0,100]. -/
theorem c2_counterexample :
    (detectOrderBlocks exOBCandles [exSP] Timeframe.m15).map (fun b => b.strength) = [130] ∧
    ¬ (130 : ℤ) ≤ 100 ∧
    (detectBreakerBlocks (detectOrderBlocks exOBCandles [exSP] Timeframe.m15)
      exOBCandles).map (fun b => b.strength) = [150] ∧
    ¬ (150 : ℤ) ≤ 100 := by
  refine ⟨by with_unfolding_all decide, by norm_num, by with_unfolding_all decide, by norm_num⟩

end Quentrex

namespace Quentrex

/-- Once the fill scan sets the filled flag it breaks, so appending
further candles does not change the result. -/
theorem trackFVGFill_stops (fvg : FairValueGap) (l1 l2 : List Candle)
    (h0 : fvg.filled = false) (h1 : (trackFVGFill fvg l1).filled = true) :
    trackFVGFill fvg (l1 ++ l2) = trackFVGFill fvg l1 := by
  induction l1 generalizing fvg with
  | nil =>
    rw [show trackFVGFill fvg [] = fvg from rfl] at h1
    rw [h0] at h1
    cases h1
  | cons c rest ih =>
    simp only [List.cons_append, trackFVGFill] at h1 ⊢
    by_cases hb : (fvg.type == OBKind.BULLISH) = true
    · simp only [if_pos hb] at h1 ⊢
      by_cases h2 : c.low ≤ fvg.top
      · simp only [if_pos h2] at h1 ⊢
        by_cases h3 : c.low ≤ fvg.bottom
        · simp only [if_pos h3] at h1 ⊢
        · simp only [if_neg h3] at h1 ⊢
          exact ih _ h0 h1
      · simp only [if_neg h2] at h1 ⊢
        exact ih _ h0 h1
    · simp only [if_neg hb] at h1 ⊢
      by_cases h2 : fvg.bottom ≤ c.high
      · simp only [if_pos h2] at h1 ⊢
        by_cases h3 : fvg.top ≤ c.high
        · simp only [if_pos h3] at h1 ⊢
        · simp only [if_neg h3] at h1 ⊢
          exact ih _ h0 h1
      · simp only [if_neg h2] at h1 ⊢
        exact ih _ h0 h1

/-- If the fill scan ends with the filled flag set, the fill percent it
reports is exactly 100. -/
theorem trackFVGFill_filled_pct (fvg : FairValueGap) (cs : List Candle)
    (h0 : fvg.filled = false) (h1 : (trackFVGFill fvg cs).filled = true) :
    (trackFVGFill fvg cs).fillPercent = 100 := by
  induction cs generalizing fvg with
  | nil =>
    rw [show trackFVGFill fvg [] = fvg from rfl] at h1
    rw [h0] at h1
    cases h1
  | cons c rest ih =>
    simp only [trackFVGFill] at h1 ⊢
    by_cases hb : (fvg.type == OBKind.BULLISH) = true
    · simp only [if_pos hb] at h1 ⊢
      by_cases h2 : c.low ≤ fvg.top
      · simp only [if_pos h2] at h1 ⊢
        by_cases h3 : c.low ≤ fvg.bottom
        · simp only [if_pos h3] at h1 ⊢
        · simp only [if_neg h3] at h1 ⊢
          exact ih _ h0 h1
      · simp only [if_neg h2] at h1 ⊢
        exact ih _ h0 h1
    · simp only [if_neg hb] at h1 ⊢
      by_cases h2 : fvg.bottom ≤ c.high
      · simp only [if_pos h2] at h1 ⊢
        by_cases h3 : fvg.top ≤ c.high
        · simp only [if_pos h3] at h1 ⊢
        · simp only [if_neg h3] at h1 ⊢
          exact ih _ h0 h1
      · simp only [if_neg h2] at h1 ⊢
        exact ih _ h0 h1

/-- C3 (amended): within one detection pass the filled flag is one-way
(set once, the scan stops, and it holds on every longer prefix), and it
is set together with a fill percent pinned at exactly 100 the moment a
candle fully crosses the far edge; the recorded fill percent, however,
is the penetration of the most recent candle reaching the gap, not the
deepest so far, and can decrease between scanned candles (see the
counterexample). -/
theorem c3_fill_tracking :
    (∀ (fvg : FairValueGap) (l1 l2 : List Candle), fvg.filled = false →
      (trackFVGFill fvg l1).filled = true →
        trackFVGFill fvg (l1 ++ l2) = trackFVGFill fvg l1) ∧
    (∀ (fvg : FairValueGap) (cs : List Candle), fvg.filled = false →
      (trackFVGFill fvg cs).filled = true →
        (trackFVGFill fvg cs).fillPercent = 100) ∧
    (∀ (fvg : FairValueGap) (cs : List Candle) (k : Nat), fvg.filled = false →
      (trackFVGFill fvg (cs.take k)).filled = true →
        (trackFVGFill fvg cs).filled = true) ∧
    (∀ (fvg : FairValueGap) (c : Candle) (rest : List Candle), fvg.filled = false →
      fvg.type = OBKind.BULLISH → fvg.bottom ≤ fvg.top → c.low ≤ fvg.bottom →
        trackFVGFill fvg (c :: rest) = { fvg with filled := true, fillPercent := 100 }) ∧
    (∀ (fvg : FairValueGap) (c : Candle) (rest : List Candle), fvg.filled = false →
      fvg.type = OBKind.BEARISH → fvg.bottom ≤ fvg.top → fvg.top ≤ c.high →
        trackFVGFill fvg (c :: rest) = { fvg with filled := true, fillPercent := 100 }) := by
  refine ⟨trackFVGFill_stops, trackFVGFill_filled_pct, ?_, ?_, ?_⟩
  · intro fvg cs k h0 h1
    rw [← List.take_append_drop k cs, trackFVGFill_stops fvg _ _ h0 h1]
    exact h1
  · intro fvg c rest h0 htype hbt hlow
    have hb : (fvg.type == OBKind.BULLISH) = true := by rw [htype]; rfl
    simp only [trackFVGFill]
    rw [if_pos hb, if_pos (le_trans hlow hbt), if_pos hlow]
  · intro fvg c rest h0 htype hbt hhigh
    have hb : (fvg.type == OBKind.BULLISH) = false := by rw [htype]; rfl
    simp only [trackFVGFill]
    rw [if_neg (by rw [hb]; exact Bool.false_ne_true), if_pos (le_trans hbt hhigh),
      if_pos hhigh]

/-- C3 witness: a candle whose low fully crosses the far edge of the
example gap sets filled and pins the fill percent at 100. -/
theorem c3_witness :
    trackFVGFill exFVG0 [mkCandle 5 99 99 99 99 1] =
      { exFVG0 with filled := true, fillPercent := 100 } :=
  c3_fill_tracking.2.2.2.1 exFVG0 (mkCandle 5 99 99 99 99 1) [] rfl rfl
    (by norm_num [exFVG0]) (by norm_num [exFVG0, mkCandle])

/-- C3 counterexample: in the example series the single gap records fill
percent 50 after two scanned candles and 10 after three, so the recorded
fill percent decreases within one detection pass. -/
theorem c3_counterexample :
    rawFVGs exFillCandles Timeframe.m15 0.05 = [exFVG0] ∧
    fvgScanList exFillCandles exFVG0 = exFillCandles.drop 2 ∧
    (trackFVGFill exFVG0 ((exFillCandles.drop 2).take 2)).fillPercent = 50 ∧
    (trackFVGFill exFVG0 ((exFillCandles.drop 2).take 3)).fillPercent = 10 ∧
    ¬ (50 : ℚ) ≤ 10 ∧
    (detectFVGs exFillCandles Timeframe.m15 0.05).map (fun f => f.fillPercent) = [10] := by
  refine ⟨?_, ?_, ?_, ?_, by norm_num, ?_⟩ <;> with_unfolding_all decide

end Quentrex

namespace Quentrex

/-- Membership through stable insertion. -/
theorem mem_insertSwing (s t : SwingPoint) (l : List SwingPoint) :
    s ∈ insertSwing t l ↔ s = t ∨ s ∈ l := by
  induction l with
  | nil => simp [insertSwing]
  | cons a as ih =>
    rw [insertSwing]
    split_ifs with h
    · simp
    · simp only [List.mem_cons, ih]
      tauto

/-- Sorting the swing list does not change membership. -/
theorem mem_sortSwings (s : SwingPoint) (l : List SwingPoint) :
    s ∈ sortSwings l ↔ s ∈ l := by
  induction l with
  | nil => simp [sortSwings]
  | cons a as ih =>
    rw [sortSwings, mem_insertSwing]
    simp [ih]

/-- A HIGH swing with index i is generated exactly when i passes the
range guard and the pivot-high test. -/
theorem high_mem_swingCandidates (candles : List Candle) (leftLen rightLen i : Nat) :
    (∃ s ∈ swingCandidates candles leftLen rightLen,
        s.index = i ∧ s.type = SwingType.HIGH) ↔
      (leftLen ≤ i ∧ i + rightLen < candles.length ∧
        isPivotHigh candles leftLen rightLen i = true) := by
  constructor
  · rintro ⟨s, hs, hidx, htype⟩
    rw [swingCandidates] at hs
    obtain ⟨j, hj, hsj⟩ := List.mem_flatMap.mp hs
    by_cases hcond : leftLen ≤ j ∧ j + rightLen < candles.length
    · rw [if_pos hcond] at hsj
      rcases List.mem_append.mp hsj with hH | hL
      · by_cases hph : isPivotHigh candles leftLen rightLen j = true
        · rw [if_pos hph] at hH
          obtain rfl := List.mem_singleton.mp hH
          obtain rfl : j = i := hidx
          exact ⟨hcond.1, hcond.2, hph⟩
        · rw [if_neg hph] at hH
          cases hH
      · by_cases hpl : isPivotLow candles leftLen rightLen j = true
        · rw [if_pos hpl] at hL
          obtain rfl := List.mem_singleton.mp hL
          cases htype
        · rw [if_neg hpl] at hL
          cases hL
    · rw [if_neg hcond] at hsj
      cases hsj
  · rintro ⟨h1, h2, h3⟩
    refine ⟨{ index := i, time := (candles.getD i default).time,
              price := (candles.getD i default).high, type := SwingType.HIGH },
      ?_, rfl, rfl⟩
    rw [swingCandidates]
    refine List.mem_flatMap.mpr ⟨i, List.mem_range.mpr (by omega), ?_⟩
    rw [if_pos ⟨h1, h2⟩]
    refine List.mem_append.mpr (Or.inl ?_)
    rw [if_pos h3]
    exact List.mem_singleton.mpr rfl

/-- A LOW swing with index i is generated exactly when i passes the
range guard and the pivot-low test. -/
theorem low_mem_swingCandidates (candles : List Candle) (leftLen rightLen i : Nat) :
    (∃ s ∈ swingCandidates candles leftLen rightLen,
        s.index = i ∧ s.type = SwingType.LOW) ↔
      (leftLen ≤ i ∧ i + rightLen < candles.length ∧
        isPivotLow candles leftLen rightLen i = true) := by
  constructor
  · rintro ⟨s, hs, hidx, htype⟩
    rw [swingCandidates] at hs
    obtain ⟨j, hj, hsj⟩ := List.mem_flatMap.mp hs
    by_cases hcond : leftLen ≤ j ∧ j + rightLen < candles.length
    · rw [if_pos hcond] at hsj
      rcases List.mem_append.mp hsj with hH | hL
      · by_cases hph : isPivotHigh candles leftLen rightLen j = true
        · rw [if_pos hph] at hH
          obtain rfl := List.mem_singleton.mp hH
          cases htype
        · rw [if_neg hph] at hH
          cases hH
      · by_cases hpl : isPivotLow candles leftLen rightLen j = true
        · rw [if_pos hpl] at hL
          obtain rfl := List.mem_singleton.mp hL
          obtain rfl : j = i := hidx
          exact ⟨hcond.1, hcond.2, hpl⟩
        · rw [if_neg hpl] at hL
          cases hL
    · rw [if_neg hcond] at hsj
      cases hsj
  · rintro ⟨h1, h2, h3⟩
    refine ⟨{ index := i, time := (candles.getD i default).time,
              price := (candles.getD i default).low, type := SwingType.LOW },
      ?_, rfl, rfl⟩
    rw [swingCandidates]
    refine List.mem_flatMap.mpr ⟨i, List.mem_range.mpr (by omega), ?_⟩
    rw [if_pos ⟨h1, h2⟩]
    refine List.mem_append.mpr (Or.inr ?_)
    rw [if_pos h3]
    exact List.mem_singleton.mpr rfl

/-- The pivot-high test holds iff every other index of the window
[i-left, i+right] has a strictly smaller high. -/
theorem isPivotHigh_iff (candles : List Candle) (leftLen rightLen i : Nat)
    (h1 : leftLen ≤ i) (h2 : i + rightLen < candles.length) :
    isPivotHigh candles leftLen rightLen i = true ↔
      ∀ j ∈ List.range candles.length, i - leftLen ≤ j → j ≤ i + rightLen → j ≠ i →
        (candles.getD j default).high < (candles.getD i default).high := by
  rw [isPivotHigh, List.all_eq_true]
  constructor
  · intro H j hj hlow hup hne
    have hjw : j ∈ pivotWindow leftLen rightLen i := by
      rw [pivotWindow]
      exact List.mem_map.mpr ⟨j - (i - leftLen), List.mem_range.mpr (by omega), by omega⟩
    have hcase := H j hjw
    simp only [Bool.or_eq_true, beq_iff_eq, decide_eq_true_eq] at hcase
    exact hcase.resolve_left hne
  · intro H j hjw
    rw [pivotWindow] at hjw
    obtain ⟨k, hk, rfl⟩ := List.mem_map.mp hjw
    have hk' := List.mem_range.mp hk
    simp only [Bool.or_eq_true, beq_iff_eq, decide_eq_true_eq]
    by_cases he : i - leftLen + k = i
    · exact Or.inl he
    · exact Or.inr (H _ (List.mem_range.mpr (by omega)) (by omega) (by omega) he)

/-- The pivot-low test holds iff every other index of the window
[i-left, i+right] has a strictly larger low. -/
theorem isPivotLow_iff (candles : List Candle) (leftLen rightLen i : Nat)
    (h1 : leftLen ≤ i) (h2 : i + rightLen < candles.length) :
    isPivotLow candles leftLen rightLen i = true ↔
      ∀ j ∈ List.range candles.length, i - leftLen ≤ j → j ≤ i + rightLen → j ≠ i →
        (candles.getD i default).low < (candles.getD j default).low := by
  rw [isPivotLow, List.all_eq_true]
  constructor
  · intro H j hj hlow hup hne
    have hjw : j ∈ pivotWindow leftLen rightLen i := by
      rw [pivotWindow]
      exact List.mem_map.mpr ⟨j - (i - leftLen), List.mem_range.mpr (by omega), by omega⟩
    have hcase := H j hjw
    simp only [Bool.or_eq_true, beq_iff_eq, decide_eq_true_eq] at hcase
    exact hcase.resolve_left hne
  · intro H j hjw
    rw [pivotWindow] at hjw
    obtain ⟨k, hk, rfl⟩ := List.mem_map.mp hjw
    have hk' := List.mem_range.mp hk
    simp only [Bool.or_eq_true, beq_iff_eq, decide_eq_true_eq]
    by_cases he : i - leftLen + k = i
    · exact Or.inl he
    · exact Or.inr (H _ (List.mem_range.mpr (by omega)) (by omega) (by omega) he)

/-- C4: an index is flagged as a HIGH pivot iff it has leftLen candles
before and rightLen after and its high strictly exceeds every other high
in the window (ties disqualify); the symmetric rule holds for LOW pivots
with strict minimum of lows; and the detector returns an empty result
whenever the sequence is shorter than leftLen + rightLen + 1. -/
theorem c4_swing_detector (candles : List Candle) (leftLen rightLen : Nat) :
    (∀ i : Nat,
      (∃ s ∈ detectSwings candles leftLen rightLen,
          s.index = i ∧ s.type = SwingType.HIGH) ↔
        (leftLen ≤ i ∧ i + rightLen < candles.length ∧
          ∀ j ∈ List.range candles.length, i - leftLen ≤ j → j ≤ i + rightLen → j ≠ i →
            (candles.getD j default).high < (candles.getD i default).high)) ∧
    (∀ i : Nat,
      (∃ s ∈ detectSwings candles leftLen rightLen,
          s.index = i ∧ s.type = SwingType.LOW) ↔
        (leftLen ≤ i ∧ i + rightLen < candles.length ∧
          ∀ j ∈ List.range candles.length, i - leftLen ≤ j → j ≤ i + rightLen → j ≠ i →
            (candles.getD i default).low < (candles.getD j default).low)) ∧
    (candles.length < leftLen + rightLen + 1 →
      detectSwings candles leftLen rightLen = []) := by
  have hsort : ∀ s, s ∈ detectSwings candles leftLen rightLen ↔
      s ∈ swingCandidates candles leftLen rightLen := by
    intro s
    rw [detectSwings, mem_sortSwings]
  refine ⟨fun i => ?_, fun i => ?_, fun hlen => ?_⟩
  · constructor
    · rintro ⟨s, hs, hidx, htype⟩
      obtain ⟨h1, h2, h3⟩ := (high_mem_swingCandidates candles leftLen rightLen i).mp
        ⟨s, (hsort s).mp hs, hidx, htype⟩
      exact ⟨h1, h2, (isPivotHigh_iff candles leftLen rightLen i h1 h2).mp h3⟩
    · rintro ⟨h1, h2, h3⟩
      obtain ⟨s, hs, hidx, htype⟩ := (high_mem_swingCandidates candles leftLen rightLen i).mpr
        ⟨h1, h2, (isPivotHigh_iff candles leftLen rightLen i h1 h2).mpr h3⟩
      exact ⟨s, (hsort s).mpr hs, hidx, htype⟩
  · constructor
    · rintro ⟨s, hs, hidx, htype⟩
      obtain ⟨h1, h2, h3⟩ := (low_mem_swingCandidates candles leftLen rightLen i).mp
        ⟨s, (hsort s).mp hs, hidx, htype⟩
      exact ⟨h1, h2, (isPivotLow_iff candles leftLen rightLen i h1 h2).mp h3⟩
    · rintro ⟨h1, h2, h3⟩
      obtain ⟨s, hs, hidx, htype⟩ := (low_mem_swingCandidates candles leftLen rightLen i).mpr
        ⟨h1, h2, (isPivotLow_iff candles leftLen rightLen i h1 h2).mpr h3⟩
      exact ⟨s, (hsort s).mpr hs, hidx, htype⟩
  · rw [detectSwings]
    have hcand : swingCandidates candles leftLen rightLen = [] := by
      refine List.eq_nil_iff_forall_not_mem.mpr fun s hs => ?_
      rw [swingCandidates] at hs
      obtain ⟨j, hj, hsj⟩ := List.mem_flatMap.mp hs
      have hj' := List.mem_range.mp hj
      rw [if_neg (by omega)] at hsj
      cases hsj
    rw [hcand]
    rfl

/-- C4 witness: in the spec scenario with highs 10, 12, 15, 11, 9 and
lookbacks 1/1 the index 2 is flagged HIGH, and lookbacks 1/4 (window
longer than the series) give an empty result. -/
theorem c4_witness :
    (∃ s ∈ detectSwings exSwingCandles 1 1, s.index = 2 ∧ s.type = SwingType.HIGH) ∧
    detectSwings exSwingCandles 1 4 = [] :=
  ⟨((c4_swing_detector exSwingCandles 1 1).1 2).mpr (by with_unfolding_all decide),
   (c4_swing_detector exSwingCandles 1 4).2.2 (by decide)⟩

end Quentrex
